import Mathlib

/-!
Shallow embedding of the two GUI dialogs `ase/gui/nanoparticle.py`
(class `SetupNanoparticle`) and `ase/gui/nanotube.py` (class `SetupNanotube`).

Modelling conventions:
* Numeric widget contents (SpinBox / Adjustment values) are rationals; a
  widget is modelled by the value it holds.
* The external library calls (the five cluster factories,
  `wulff_construction`, `nanotube`) construct opaque atoms objects; the GUI
  code only assembles their arguments, so a constructed atoms object is
  modelled by a record of the call that produced it (for the nanoparticle
  dialog) or by an abstract builder function passed as a parameter (for the
  nanotube dialog).
* Modal error dialogs (`oops`) and the `gui.new_atoms` callback are modelled
  as explicit event values returned next to the new state.
* Uncaught Python exceptions (`raise RuntimeError`, `KeyError`) are modelled
  with `Except.error`.
* Label/widget rendering (`makeinfo` text, widget rebuilding in
  `update_direction_table`) has no effect on the modelled state beyond the
  fields below and is noted in comments where it occurs.
-/

namespace Nanoparticle

/-- Python `int()` applied to a rational: truncation toward zero
(`int(x[1].value)` in `makeatoms`, `int(a.value)` in `row_add`). -/
def pyInt (q : ℚ) : Int := q.num.tdiv q.den

/-- The five cluster factories imported from `ase.cluster` (external
library); the GUI only selects one and passes it on. -/
inductive Factory where
  | FaceCenteredCubic
  | BodyCenteredCubic
  | SimpleCubic
  | HexagonalClosedPacked
  | Graphite
deriving DecidableEq, Repr

/-- `structure_data` (nanoparticle.py lines 90-99):
(abbreviation, 4-index needed, two lattice constants needed, factory).
The human-readable names are display strings and are omitted. -/
def structure_data : List (String × Bool × Bool × Factory) :=
  [("fcc", false, false, Factory.FaceCenteredCubic),
   ("bcc", false, false, Factory.BodyCenteredCubic),
   ("sc", false, false, Factory.SimpleCubic),
   ("hcp", true, true, Factory.HexagonalClosedPacked),
   ("graphite", true, true, Factory.Graphite)]

/-- `self.list_of_structures`: the combo-box values in order. -/
def list_of_structures : List String := structure_data.map (fun x => x.1)

/-- The dict `self.needs_4index`, built in `__init__` from `structure_data`.
Looking up a key that is absent raises `KeyError` in Python; the combo box
only ever yields the five keys, so the default is never observable there. -/
def needs_4index (s : String) : Bool :=
  ((structure_data.find? (fun x => x.1 = s)).map (fun x => x.2.1)).getD false

/-- The dict `self.needs_2lat`, built in `__init__` from `structure_data`. -/
def needs_2lat (s : String) : Bool :=
  ((structure_data.find? (fun x => x.1 = s)).map (fun x => x.2.2.1)).getD false

/-- The dict `self.factory`, built in `__init__` from `structure_data`;
`none` models a `KeyError`. -/
def factory (s : String) : Option Factory :=
  (structure_data.find? (fun x => x.1 = s)).map (fun x => x.2.2.2)

/-- The dict `default_layers` (nanoparticle.py lines 111-123). -/
def default_layers (s : String) : List (List Int × Int) :=
  if s = "fcc" then [([1, 0, 0], 6), ([1, 1, 0], 9), ([1, 1, 1], 5)]
  else if s = "bcc" then [([1, 0, 0], 6), ([1, 1, 0], 9), ([1, 1, 1], 5)]
  else if s = "sc" then [([1, 0, 0], 6), ([1, 1, 0], 9), ([1, 1, 1], 5)]
  else if s = "hcp" then [([0, 0, 0, 1], 5), ([1, 0, -1, 0], 5)]
  else if s = "graphite" then [([0, 0, 0, 1], 5), ([1, 0, -1, 0], 5)]
  else []

/-- One row of `self.direction_table`: the direction index tuple, the value
of the layer-count adjustment and the value of the surface-energy
adjustment. -/
structure Row where
  surface : List Int
  layersVal : ℚ
  energyVal : ℚ
deriving DecidableEq, Repr

/-- The specification method combo box (`self.method`), values
`['layers', 'wulff']`. -/
inductive Method where
  | layers
  | wulff
deriving DecidableEq, Repr

/-- The `latticeconstant` argument handed to the library: a single `a`, or
the dict `{'a': a, 'c': c}` when the structure needs two constants. -/
inductive LatticeConstant where
  | single (a : ℚ)
  | double (a c : ℚ)
deriving DecidableEq, Repr

/-- A call into the external cluster-building library, recording the callee
and every argument in order; the resulting atoms object is opaque to the
GUI code, so it is identified with the call that produced it. -/
inductive ClusterCall where
  | layersCall (factory : Factory) (element : String)
      (surfaces : List (List Int)) (layers : List Int)
      (latticeconstant : LatticeConstant)
  | wulffCall (element : String) (surfaces : List (List Int))
      (energies : List ℚ) (size : ℚ) (factory : Factory) (rounding : String)
      (latticeconstant : LatticeConstant)
deriving DecidableEq, Repr

/-- The state of the `SetupNanoparticle` dialog: every widget value and
attribute the two files' code reads or writes. -/
structure NPState where
  /-- `self.structure.value`, also `self.list_of_structures[self.structure.get_active()]`. -/
  structureValue : String
  /-- `self.old_structure`. -/
  old_structure : String
  /-- `self.fourindex`. -/
  fourindex : Bool
  /-- `self.direction_table`. -/
  direction_table : List Row
  /-- `self.lattice_const_a.value`. -/
  lattice_const_a : ℚ
  /-- `self.lattice_const_c.value`. -/
  lattice_const_c : ℚ
  /-- Whether `lattice_label_c` / `lattice_box_c` are shown. -/
  show_lattice_c : Bool
  /-- Whether the fourth new-direction widgets are shown. -/
  show_newdir4 : Bool
  /-- `self.method.value` / `self.method.get_active()`. -/
  method : Method
  /-- The symbol currently entered in the `Element` widget, `none` when it
  is not a valid element. -/
  element_symbol : Option String
  /-- `self.legal_element`. -/
  legal_element : Option String
  /-- Values of the new-direction index spin boxes (`self.newdir_index`). -/
  newdir_index : List ℚ
  /-- `self.newdir_layers.value`. -/
  newdir_layers : ℚ
  /-- `self.newdir_esurf.value`. -/
  newdir_esurf : ℚ
  /-- `self.size_n_adj.value`. -/
  size_n : ℚ
  /-- `self.size_dia_adj.value`. -/
  size_dia : ℚ
  /-- `self.size_n_radio.get_active()`. -/
  size_n_radio : Bool
  /-- `self.size_dia_radio.get_active()`. -/
  size_dia_radio : Bool
  /-- `self.round_above.get_active()`. -/
  round_above : Bool
  /-- `self.round_below.get_active()`. -/
  round_below : Bool
  /-- `self.round_closest.get_active()`. -/
  round_closest : Bool
  /-- `self.auto.get_active()`. -/
  auto : Bool
  /-- `self.no_update`. -/
  no_update : Bool
  /-- `self.atoms`. -/
  atoms : Option ClusterCall
  /-- `self.pybut.python`, abstracted to which template (if any) filled it. -/
  python : Option Method
deriving DecidableEq, Repr

/-- Modelled from the spec: `update_element` is defined elsewhere in
`ase.gui` (not in the two files in scope).  Per the spec's error-handling
section ("invalid element" validation), it records in `legal_element`
whether the element entry currently holds a valid element symbol and
returns that validity. -/
def update_element (s : NPState) : NPState × Bool :=
  ({s with legal_element := s.element_symbol}, s.element_symbol.isSome)

/-- `clearatoms` (lines 519-521). -/
def clearatoms (s : NPState) : NPState :=
  {s with atoms := none, python := none}

/-- The state effect of `update_size_dia` (lines 405-411): when the
diameter radio button is active, the atom-count adjustment is recomputed
from the diameter.  The numeric conversion
`round(np.pi / 6 * dia**3 / at_vol)` is floating-point arithmetic through
`get_atomic_volume` and is abstracted as the parameter `dconv`; the
trailing `self.update()` call is only reached when the diameter radio is
active and is not modelled (the theorems about `makeatoms` assume the
atom-count radio is selected, where this function returns immediately). -/
def update_size_dia_state (dconv : ℚ → ℚ) (s : NPState) : NPState :=
  if s.size_dia_radio then {s with size_n := dconv s.size_dia} else s

/-- `makeatoms` (lines 460-517).  The `pybut.python` template strings are
abstracted to which template was used; the final `makeinfo()` only updates
labels and button sensitivity, which are not part of the modelled state. -/
def makeatoms (dconv : ℚ → ℚ) (s : NPState) : Except String NPState :=
  match update_element s with
  | (s1, false) => Except.ok (clearatoms s1)
  | (s1, true) =>
    match s1.legal_element with
    | none => Except.error "AssertionError"
    | some elem =>
      let struct := s1.structureValue
      let lc : LatticeConstant :=
        if needs_2lat struct then
          LatticeConstant.double s1.lattice_const_a s1.lattice_const_c
        else
          LatticeConstant.single s1.lattice_const_a
      match factory struct with
      | none => Except.error ("KeyError: " ++ struct)
      | some fac =>
        match s1.method with
        | Method.layers =>
          let surfaces := s1.direction_table.map Row.surface
          let layers := s1.direction_table.map (fun x => pyInt x.layersVal)
          Except.ok {s1 with
            atoms := some (ClusterCall.layersCall fac elem surfaces layers lc),
            python := some Method.layers}
        | Method.wulff =>
          let surfaces := s1.direction_table.map Row.surface
          let surfaceenergies := s1.direction_table.map Row.energyVal
          let s2 := update_size_dia_state dconv s1
          let rounding : Option String :=
            if s2.round_above then some "above"
            else if s2.round_below then some "below"
            else if s2.round_closest then some "closest"
            else none
          match rounding with
          | none => Except.error "No rounding!"
          | some r =>
            Except.ok {s2 with
              atoms := some (ClusterCall.wulffCall elem surfaces
                surfaceenergies s2.size_n fac r lc),
              python := some Method.wulff}

/-- Observable GUI events of the nanoparticle dialog: the `gui.new_atoms`
callback and modal `oops` error dialogs. -/
inductive NPEvent where
  | new_atoms (atoms : ClusterCall)
  | oops (title : String)
deriving DecidableEq, Repr

/-- `apply` (lines 559-568): rebuild the atoms, then hand them to the host
viewer on success or show the modal "No valid atoms." dialog.  An
exception escaping `makeatoms` propagates out of `apply`. -/
def apply (dconv : ℚ → ℚ) (s : NPState) :
    Except String (NPState × Bool × List NPEvent) :=
  match makeatoms dconv s with
  | Except.error e => Except.error e
  | Except.ok s1 =>
    match s1.atoms with
    | some a => Except.ok (s1, true, [NPEvent.new_atoms a])
    | none => Except.ok (s1, false, [NPEvent.oops "No valid atoms."])

/-- `row_add` (lines 362-381): validate the new direction indices and
append the new row.  The trailing `update_direction_table()` rebuilds the
widget rows from `direction_table` and does not change it. -/
def row_add (s : NPState) : NPState × Option String :=
  let n := if s.fourindex then 4 else 3
  let idx : List Int := (s.newdir_index.take n).map pyInt
  if idx.all (fun v => v = 0) then
    (s, some "At least one index must be non-zero")
  else if n = 4 ∧ (idx.take 3).sum ≠ 0 then
    (s, some "Invalid hexagonal indices")
  else
    ({s with direction_table :=
        s.direction_table ++ [⟨idx, s.newdir_layers, s.newdir_esurf⟩]}, none)

/-- `row_delete` (lines 383-385): `del self.direction_table[row]`; `none`
models the `IndexError` on an out-of-range index.  The trailing
`update_direction_table()` does not change the table. -/
def row_delete (dt : List Row) (row : Nat) : Option (List Row) :=
  if row < dt.length then some (dt.eraseIdx row) else none

/-- `row_swap_next` (lines 387-390):
`dt[row], dt[row+1] = dt[row+1], dt[row]`; `none` models the `IndexError`
on an out-of-range index.  The trailing `update_direction_table()` does
not change the table. -/
def row_swap_next (dt : List Row) (row : Nat) : Option (List Row) :=
  match dt[row + 1]?, dt[row]? with
  | some next, some cur => some ((dt.set row next).set (row + 1) cur)
  | _, _ => none

/-- `default_direction_table` (lines 205-211): clear the table, then
`add_direction(direction, layers, 1.0)` for each default row.
`add_direction` appends `(direction, layers, energy)` and refreshes the
widget rows; its intermediate `update()` calls are collapsed into the
caller's final `update()`, which computes the same modelled state. -/
def default_direction_table (s : NPState) : NPState :=
  let dt : List Row :=
    (default_layers s.structureValue).map (fun dl => ⟨dl.1, (dl.2 : ℚ), 1⟩)
  {s with direction_table := dt}

/-- `update` (lines 413-423): refresh the element validity, then either
auto-rebuild the atoms or clear them.  The `gui.new_atoms` callback it may
fire and the final `makeinfo()` label refresh are outside the modelled
state. -/
def update (dconv : ℚ → ℚ) (s : NPState) : Except String NPState :=
  if s.no_update then Except.ok s
  else
    let s1 := (update_element s).1
    if s1.auto then makeatoms dconv s1
    else Except.ok (clearatoms s1)

/-- `update_structure` (lines 306-328): react to a change of the crystal
structure combo box, resetting the direction table exactly when the index
arity changed, then `update()`. -/
def update_structure (dconv : ℚ → ℚ) (s : NPState) : Except String NPState :=
  let sv := s.structureValue
  let s1 :=
    if sv ≠ s.old_structure then
      let old4 := s.fourindex
      let new4 := needs_4index sv
      let sa := {s with fourindex := new4}
      let sb := if new4 ≠ old4 then default_direction_table sa else sa
      {sb with
        old_structure := sv
        show_lattice_c := needs_2lat sv
        show_newdir4 := new4}
    else s
  update dconv s1

/-- `get_atomic_volume` (lines 523-538), as a function of the selected
structure string and the two lattice-constant spin box values;
`np.sqrt(3.0)` is the real square root of 3. -/
noncomputable def get_atomic_volume (s : String) (a c : ℚ) :
    Except String ℝ :=
  if s = "fcc" then Except.ok ((a : ℝ) ^ 3 / 4)
  else if s = "bcc" then Except.ok ((a : ℝ) ^ 3 / 2)
  else if s = "sc" then Except.ok ((a : ℝ) ^ 3)
  else if s = "hcp" then
    Except.ok (Real.sqrt 3 / 2 * (a : ℝ) * (a : ℝ) * (c : ℝ) / 2)
  else if s = "graphite" then
    Except.ok (Real.sqrt 3 / 2 * (a : ℝ) * (a : ℝ) * (c : ℝ) / 4)
  else Except.error ("Unknown structure: " ++ s)

/-- The diameter formula shared by `makeinfo` (line 554) and
`update_size_n` (line 401): `2 * (3 * n * at_vol / (4 * pi))**(1/3)`. -/
noncomputable def cluster_diameter (natoms : ℚ) (at_vol : ℝ) : ℝ :=
  2 * (3 * (natoms : ℝ) * at_vol / (4 * Real.pi)) ^ ((1 : ℝ) / 3)

/-- The approximate diameter reported by `makeinfo` (lines 552-555) for a
cluster of `natoms` atoms: computed from `get_atomic_volume`. -/
noncomputable def reported_diameter (s : NPState) (natoms : ℕ) :
    Except String ℝ :=
  (get_atomic_volume s.structureValue s.lattice_const_a s.lattice_const_c).map
    (fun v => cluster_diameter (natoms : ℚ) v)

/-- The atom-count-to-diameter conversion of `update_size_n`
(lines 397-403): computed from `get_atomic_volume`. -/
noncomputable def size_n_to_dia (s : NPState) : Except String ℝ :=
  (get_atomic_volume s.structureValue s.lattice_const_a s.lattice_const_c).map
    (fun v => cluster_diameter s.size_n v)

/-- The diameter-to-atom-count conversion of `update_size_dia`
(lines 405-411): `round(np.pi / 6 * dia**3 / at_vol)`, computed from
`get_atomic_volume`. -/
noncomputable def size_dia_to_n (s : NPState) : Except String ℝ :=
  (get_atomic_volume s.structureValue s.lattice_const_a s.lattice_const_c).map
    (fun v => (round (Real.pi / 6 * (s.size_dia : ℝ) ^ 3 / v) : ℤ))

end Nanoparticle

namespace Nanotube

/-- A spin box as created by `ui.SpinBox(value, start, end, step, callback)`. -/
structure SpinBoxSpec where
  value : ℚ
  minimum : ℚ
  maximum : ℚ
  step : ℚ
deriving DecidableEq, Repr

/-- `self.n = ui.SpinBox(5, 1, 100, 1, self.make)` (nanotube.py line 33). -/
def n_spinbox : SpinBoxSpec := ⟨5, 1, 100, 1⟩

/-- `self.m = ui.SpinBox(5, 0, 100, 1, self.make)` (nanotube.py line 34). -/
def m_spinbox : SpinBoxSpec := ⟨5, 0, 100, 1⟩

/-- `self.length = ui.SpinBox(1, 1, 100, 1, self.make)` (line 35). -/
def length_spinbox : SpinBoxSpec := ⟨1, 1, 100, 1⟩

/-- `self.bondlength = ui.SpinBox(1.42, 0.0, 10.0, 0.01, self.make)`
(line 32). -/
def bondlength_spinbox : SpinBoxSpec := ⟨142 / 100, 0, 10, 1 / 100⟩

/-- The parts of the atoms object returned by the external `nanotube`
builder that the dialog reads: `len(atoms)`, `atoms.cell[0, 0]` and
`atoms.cell[2, 2]`. -/
structure TubeAtoms where
  natoms : ℕ
  cell00 : ℚ
  cell22 : ℚ
deriving DecidableEq, Repr

/-- The description label: empty, or filled from `label_template` with the
atom count, the diameter `cell[0,0]/2` and the total length `cell[2,2]`. -/
inductive NTLabel where
  | emptyText
  | info (natoms : ℕ) (diameter : ℚ) (total_length : ℚ)
deriving DecidableEq, Repr

/-- The arguments substituted into `py_template`. -/
structure PyCall where
  n : ℚ
  m : ℚ
  length : ℚ
  bl : ℚ
  symb : String
deriving DecidableEq, Repr

/-- The state of the `SetupNanotube` dialog. -/
structure NTState where
  /-- `self.element.symbol`, `none` when the entry is not a valid element. -/
  symbol : Option String
  /-- `self.bondlength.value`. -/
  bondlength : ℚ
  /-- `self.n.value`. -/
  n : ℚ
  /-- `self.m.value`. -/
  m : ℚ
  /-- `self.length.value`. -/
  length : ℚ
  /-- `self.description.text`. -/
  description : NTLabel
  /-- `self.atoms`. -/
  atoms : Option TubeAtoms
  /-- `self.python`. -/
  python : Option PyCall
deriving DecidableEq, Repr

/-- Observable GUI events of the nanotube dialog. -/
inductive NTEvent where
  | new_atoms (atoms : TubeAtoms)
  | oops (title : String)
deriving DecidableEq, Repr

/-- `make` (nanotube.py lines 57-76), parametrised by the external
`nanotube` builder `nt` (called as
`nanotube(n, m, length=length, bond=bl, symbol=symbol)`). It shows no
dialogs, hence the always-empty event list. -/
def make (nt : ℚ → ℚ → ℚ → ℚ → String → TubeAtoms) (s : NTState) :
    NTState × List NTEvent :=
  match s.symbol with
  | none =>
    ({s with atoms := none, python := none,
             description := NTLabel.emptyText}, [])
  | some symbol =>
    let a := nt s.n s.m s.length s.bondlength symbol
    ({s with
        atoms := some a,
        python := some ⟨s.n, s.m, s.length, s.bondlength, symbol⟩,
        description := NTLabel.info a.natoms (a.cell00 / 2) a.cell22}, [])

/-- `apply` (nanotube.py lines 78-87). -/
def apply (nt : ℚ → ℚ → ℚ → ℚ → String → TubeAtoms) (s : NTState) :
    NTState × Bool × List NTEvent :=
  let r := make nt s
  match r.1.atoms with
  | some a => (r.1, true, r.2 ++ [NTEvent.new_atoms a])
  | none => (r.1, false, r.2 ++ [NTEvent.oops "No valid atoms."])

end Nanotube

namespace Nanoparticle

/-- A concrete dialog state (layer-specification method, element C,
fcc structure) used to instantiate the theorems below. -/
def npLayersExample : NPState :=
  { structureValue := "fcc"
    old_structure := "fcc"
    fourindex := false
    direction_table := [⟨[1, 0, 0], 6, 1⟩, ⟨[1, 1, 1], 5, 1⟩]
    lattice_const_a := 3
    lattice_const_c := 3
    show_lattice_c := false
    show_newdir4 := false
    method := Method.layers
    element_symbol := some "C"
    legal_element := none
    newdir_index := [0, 0, 0, 0]
    newdir_layers := 5
    newdir_esurf := 1
    size_n := 100
    size_dia := 1
    size_n_radio := true
    size_dia_radio := false
    round_above := false
    round_below := false
    round_closest := true
    auto := false
    no_update := false
    atoms := none
    python := none }

/-- `npLayersExample` switched to the Wulff method with rounding above. -/
def npWulffExample : NPState :=
  {npLayersExample with method := Method.wulff, round_above := true}

/-- The library call `makeatoms` assembles from `npLayersExample`. -/
def npLayersCall : ClusterCall :=
  ClusterCall.layersCall Factory.FaceCenteredCubic "C"
    [[1, 0, 0], [1, 1, 1]] [6, 5] (LatticeConstant.single 3)

/-- The state `makeatoms` produces from `npLayersExample`. -/
def npLayersResult : NPState :=
  { npLayersExample with
    legal_element := some "C"
    atoms := some npLayersCall
    python := some Method.layers }

/-- `npLayersExample` after the user switched the structure combo box to
hcp (so the stored `old_structure` is still fcc). -/
def npStructChangeExample : NPState :=
  {npLayersExample with structureValue := "hcp"}

/-- The state `update_structure` produces from `npStructChangeExample`. -/
def npStructChangeResult : NPState :=
  { npLayersExample with
    structureValue := "hcp"
    old_structure := "hcp"
    fourindex := true
    direction_table := [⟨[0, 0, 0, 1], 5, 1⟩, ⟨[1, 0, -1, 0], 5, 1⟩]
    show_lattice_c := true
    show_newdir4 := true
    legal_element := some "C" }

end Nanoparticle

namespace Nanotube

/-- A concrete nanotube dialog state (element C, n = 5, m = 7: note
m > n) used to instantiate the theorems below. -/
def ntExample : NTState :=
  { symbol := some "C"
    bondlength := 142 / 100
    n := 5
    m := 7
    length := 1
    description := NTLabel.emptyText
    atoms := none
    python := none }

/-- A concrete stand-in for the external `nanotube` builder. -/
def ntBuilder : ℚ → ℚ → ℚ → ℚ → String → TubeAtoms :=
  fun n m _ _ _ => ⟨2, n + m, 3⟩

end Nanotube

open Nanoparticle

/-- Helper: the `needs_2lat` dict is true exactly for hcp and graphite. -/
theorem needs_2lat_iff (t : String) :
    needs_2lat t = true ↔ (t = "hcp" ∨ t = "graphite") := by
  by_cases h1 : t = "fcc"
  · subst h1; decide
  by_cases h2 : t = "bcc"
  · subst h2; decide
  by_cases h3 : t = "sc"
  · subst h3; decide
  by_cases h4 : t = "hcp"
  · subst h4; decide
  by_cases h5 : t = "graphite"
  · subst h5; decide
  have hnone : structure_data.find? (fun x => x.1 = t) = none := by
    rw [List.find?_eq_none]
    intro x hx
    simp only [structure_data, List.mem_cons, List.not_mem_nil, or_false] at hx
    rcases hx with h | h | h | h | h <;> subst h <;>
      simp only [decide_eq_true_eq] <;> intro hc
    · exact h1 hc.symm
    · exact h2 hc.symm
    · exact h3 hc.symm
    · exact h4 hc.symm
    · exact h5 hc.symm
  simp [needs_2lat, hnone, h4, h5]

/-- C1: with a valid element and the layer-specification method selected,
`makeatoms` builds the atoms by calling the selected crystal structure's
factory with `surfaces` the first components of the direction table,
`layers` the integer spin values of the rows in table order, and
`latticeconstant` the `a` constant, or the `{a, c}` pair for structures
needing two lattice constants, which are exactly hcp and graphite. -/
theorem nanoparticle_layers_factory_call (dconv : ℚ → ℚ) (s : NPState)
    (elem : String) (fac : Factory)
    (hElem : s.element_symbol = some elem)
    (hMethod : s.method = Method.layers)
    (hFac : factory s.structureValue = some fac) :
    Except.map NPState.atoms (makeatoms dconv s) =
      Except.ok (some (ClusterCall.layersCall fac elem
        (s.direction_table.map Row.surface)
        (s.direction_table.map (fun x => pyInt x.layersVal))
        (if needs_2lat s.structureValue then
          LatticeConstant.double s.lattice_const_a s.lattice_const_c
        else LatticeConstant.single s.lattice_const_a))) ∧
    (∀ t : String, needs_2lat t = true ↔ (t = "hcp" ∨ t = "graphite")) := by
  refine ⟨?_, needs_2lat_iff⟩
  simp [makeatoms, update_element, hElem, hMethod, hFac, Except.map]

/-- Witness for C1 at a concrete state. -/
theorem nanoparticle_layers_factory_call_witness :
    Except.map NPState.atoms (makeatoms id npLayersExample) =
      Except.ok (some (ClusterCall.layersCall Factory.FaceCenteredCubic "C"
        (npLayersExample.direction_table.map Row.surface)
        (npLayersExample.direction_table.map (fun x => pyInt x.layersVal))
        (if needs_2lat npLayersExample.structureValue then
          LatticeConstant.double npLayersExample.lattice_const_a
            npLayersExample.lattice_const_c
        else LatticeConstant.single npLayersExample.lattice_const_a))) :=
  (nanoparticle_layers_factory_call id npLayersExample "C"
    Factory.FaceCenteredCubic rfl rfl (by decide)).1

/-- C2: with a valid element and the Wulff method selected (and size given
as an atom count), `makeatoms` calls `wulff_construction` with the
direction-table first components as surfaces, the third components as
surface energies, the selected atom count, the selected structure's
factory, the lattice constant, and the rounding mode of whichever rounding
radio button is active; with no rounding button active it raises
`RuntimeError`. -/
theorem nanoparticle_wulff_call (dconv : ℚ → ℚ) (s : NPState)
    (elem : String) (fac : Factory)
    (hElem : s.element_symbol = some elem)
    (hMethod : s.method = Method.wulff)
    (hFac : factory s.structureValue = some fac)
    (hDia : s.size_dia_radio = false) :
    (s.round_above = true →
      Except.map NPState.atoms (makeatoms dconv s) =
        Except.ok (some (ClusterCall.wulffCall elem
          (s.direction_table.map Row.surface)
          (s.direction_table.map Row.energyVal)
          s.size_n fac "above"
          (if needs_2lat s.structureValue then
            LatticeConstant.double s.lattice_const_a s.lattice_const_c
          else LatticeConstant.single s.lattice_const_a)))) ∧
    (s.round_above = false → s.round_below = true →
      Except.map NPState.atoms (makeatoms dconv s) =
        Except.ok (some (ClusterCall.wulffCall elem
          (s.direction_table.map Row.surface)
          (s.direction_table.map Row.energyVal)
          s.size_n fac "below"
          (if needs_2lat s.structureValue then
            LatticeConstant.double s.lattice_const_a s.lattice_const_c
          else LatticeConstant.single s.lattice_const_a)))) ∧
    (s.round_above = false → s.round_below = false → s.round_closest = true →
      Except.map NPState.atoms (makeatoms dconv s) =
        Except.ok (some (ClusterCall.wulffCall elem
          (s.direction_table.map Row.surface)
          (s.direction_table.map Row.energyVal)
          s.size_n fac "closest"
          (if needs_2lat s.structureValue then
            LatticeConstant.double s.lattice_const_a s.lattice_const_c
          else LatticeConstant.single s.lattice_const_a)))) ∧
    (s.round_above = false → s.round_below = false → s.round_closest = false →
      makeatoms dconv s = Except.error "No rounding!") := by
  refine ⟨?_, ?_, ?_, ?_⟩ <;> intros <;>
    simp [makeatoms, update_element, update_size_dia_state, Except.map,
      hElem, hMethod, hFac, hDia, *]

/-- Witness for C2 at a concrete state with the above rounding active. -/
theorem nanoparticle_wulff_call_witness :
    Except.map NPState.atoms (makeatoms id npWulffExample) =
      Except.ok (some (ClusterCall.wulffCall "C"
        (npWulffExample.direction_table.map Row.surface)
        (npWulffExample.direction_table.map Row.energyVal)
        npWulffExample.size_n Factory.FaceCenteredCubic "above"
        (if needs_2lat npWulffExample.structureValue then
          LatticeConstant.double npWulffExample.lattice_const_a
            npWulffExample.lattice_const_c
        else LatticeConstant.single npWulffExample.lattice_const_a))) :=
  (nanoparticle_wulff_call id npWulffExample "C" Factory.FaceCenteredCubic
    rfl rfl (by decide) rfl).1 rfl

/-- C3: `row_add` rejects an all-zero index vector, and (for four-index
structures) one whose first three indices do not sum to zero, in each case
showing a modal error dialog and leaving the state (so the direction
table) exactly as it was; an index vector passing both checks is appended
to the direction table with the new-direction layer and energy values. -/
theorem row_add_validation (s : NPState) :
    ((((s.newdir_index.take (if s.fourindex then 4 else 3)).map pyInt).all
        (fun v => v = 0)) = true →
      row_add s = (s, some "At least one index must be non-zero")) ∧
    ((((s.newdir_index.take (if s.fourindex then 4 else 3)).map pyInt).all
        (fun v => v = 0)) = false → s.fourindex = true →
      ((((s.newdir_index.take (if s.fourindex then 4 else 3)).map
          pyInt).take 3).sum ≠ 0) →
      row_add s = (s, some "Invalid hexagonal indices")) ∧
    ((((s.newdir_index.take (if s.fourindex then 4 else 3)).map pyInt).all
        (fun v => v = 0)) = false →
      (s.fourindex = true →
        (((s.newdir_index.take (if s.fourindex then 4 else 3)).map
            pyInt).take 3).sum = 0) →
      row_add s = ({s with direction_table := s.direction_table ++
          [⟨(s.newdir_index.take (if s.fourindex then 4 else 3)).map pyInt,
            s.newdir_layers, s.newdir_esurf⟩]}, none)) := by
  refine ⟨?_, ?_, ?_⟩
  · intro hall
    simp only [row_add]
    rw [if_pos hall]
  · intro hall hfour hsum
    simp only [row_add]
    rw [hall]
    rw [if_neg (by simp)]
    rw [if_pos ⟨by simp [hfour], hsum⟩]
  · intro hall hsum
    simp only [row_add]
    rw [hall]
    rw [if_neg (by simp)]
    rw [if_neg ?hc]
    case hc =>
      rintro ⟨h4, hs⟩
      cases hF : s.fourindex
      · rw [hF] at h4; simp at h4
      · exact hs (hsum hF)

/-- Witness for C3: the dialog's default all-zero new-direction entry is
rejected and the state is unchanged. -/
theorem row_add_validation_witness :
    row_add npLayersExample =
      (npLayersExample, some "At least one index must be non-zero") :=
  (row_add_validation npLayersExample).1 (by decide)

/-- Helper: the nanotube `make` never shows a dialog. -/
theorem nanotube_make_events_nil
    (nt : ℚ → ℚ → ℚ → ℚ → String → Nanotube.TubeAtoms)
    (s : Nanotube.NTState) : (Nanotube.make nt s).2 = [] := by
  cases h : s.symbol <;> simp [Nanotube.make, h]

/-- C4: in both dialogs, `apply` first rebuilds the atoms, then calls
`gui.new_atoms` and returns `True` exactly when the atoms are not `None`;
when they are `None` it shows the modal "No valid atoms." dialog instead
of invoking the callback and returns `False`. -/
theorem apply_callback_discipline :
    (∀ (dconv : ℚ → ℚ) (s s1 : NPState) (b : Bool) (evs : List NPEvent),
      Nanoparticle.apply dconv s = Except.ok (s1, b, evs) →
        makeatoms dconv s = Except.ok s1 ∧
        (b = true ↔ s1.atoms ≠ none) ∧
        (∀ a, s1.atoms = some a → evs = [NPEvent.new_atoms a]) ∧
        (s1.atoms = none → evs = [NPEvent.oops "No valid atoms."])) ∧
    (∀ (nt : ℚ → ℚ → ℚ → ℚ → String → Nanotube.TubeAtoms)
        (s s1 : Nanotube.NTState) (b : Bool) (evs : List Nanotube.NTEvent),
      Nanotube.apply nt s = (s1, b, evs) →
        (Nanotube.make nt s).1 = s1 ∧
        (b = true ↔ s1.atoms ≠ none) ∧
        (∀ a, s1.atoms = some a → evs = [Nanotube.NTEvent.new_atoms a]) ∧
        (s1.atoms = none → evs = [Nanotube.NTEvent.oops "No valid atoms."])) := by
  constructor
  · intro dconv s s1 b evs h
    unfold Nanoparticle.apply at h
    cases hm : makeatoms dconv s with
    | error e =>
      rw [hm] at h
      simp at h
    | ok s2 =>
      rw [hm] at h
      cases ha : s2.atoms with
      | some a =>
        simp only [ha] at h
        obtain ⟨rfl, rfl, rfl⟩ := by simpa using h
        exact ⟨rfl, by simp [ha], fun x hx => by simp_all,
          fun hx => by simp [ha] at hx⟩
      | none =>
        simp only [ha] at h
        obtain ⟨rfl, rfl, rfl⟩ := by simpa using h
        exact ⟨rfl, by simp [ha], fun x hx => by simp_all,
          fun hx => rfl⟩
  · intro nt s s1 b evs h
    unfold Nanotube.apply at h
    cases ha : (Nanotube.make nt s).1.atoms with
    | some a =>
      simp only [ha] at h
      obtain ⟨rfl, rfl, rfl⟩ := by simpa using h
      refine ⟨rfl, by simp [ha], fun x hx => ?_, fun hx => by simp [ha] at hx⟩
      rw [nanotube_make_events_nil]
      rw [ha] at hx
      simp at hx
      simp [hx]
    | none =>
      simp only [ha] at h
      obtain ⟨rfl, rfl, rfl⟩ := by simpa using h
      refine ⟨rfl, by simp [ha], fun x hx => by simp_all, fun hx => ?_⟩
      rw [nanotube_make_events_nil]
      rfl

/-- Witness for C4 at a concrete nanoparticle state with valid atoms. -/
theorem apply_callback_discipline_witness :
    makeatoms id npLayersExample = Except.ok npLayersResult ∧
    (true = true ↔ npLayersResult.atoms ≠ none) :=
  have h := apply_callback_discipline.1 id npLayersExample npLayersResult
    true [NPEvent.new_atoms npLayersCall] (by rfl)
  ⟨h.1, h.2.1⟩

/-- C5: nanotube generation is fully delegated: with a valid element
symbol, `make` sets the atoms to exactly the external builder's result for
the dialog's n, m, length, bond length and symbol, filling the python
snippet and the description label from that result's atom count and cell;
with an invalid element it sets atoms and python to `None` and empties the
description. -/
theorem nanotube_make_delegates
    (nt : ℚ → ℚ → ℚ → ℚ → String → Nanotube.TubeAtoms)
    (s : Nanotube.NTState) :
    (∀ sym, s.symbol = some sym →
      Nanotube.make nt s =
        ({s with
            atoms := some (nt s.n s.m s.length s.bondlength sym)
            python := some ⟨s.n, s.m, s.length, s.bondlength, sym⟩
            description := Nanotube.NTLabel.info
              (nt s.n s.m s.length s.bondlength sym).natoms
              ((nt s.n s.m s.length s.bondlength sym).cell00 / 2)
              (nt s.n s.m s.length s.bondlength sym).cell22}, [])) ∧
    (s.symbol = none →
      Nanotube.make nt s =
        ({s with
            atoms := none
            python := none
            description := Nanotube.NTLabel.emptyText}, [])) := by
  constructor
  · intro sym hsym
    simp [Nanotube.make, hsym]
  · intro hnone
    simp [Nanotube.make, hnone]

/-- Witness for C5 at a concrete state and builder. -/
theorem nanotube_make_delegates_witness :
    Nanotube.make Nanotube.ntBuilder Nanotube.ntExample =
      ({Nanotube.ntExample with
          atoms := some (Nanotube.ntBuilder Nanotube.ntExample.n
            Nanotube.ntExample.m Nanotube.ntExample.length
            Nanotube.ntExample.bondlength "C")
          python := some ⟨Nanotube.ntExample.n, Nanotube.ntExample.m,
            Nanotube.ntExample.length, Nanotube.ntExample.bondlength, "C"⟩
          description := Nanotube.NTLabel.info
            (Nanotube.ntBuilder Nanotube.ntExample.n Nanotube.ntExample.m
              Nanotube.ntExample.length Nanotube.ntExample.bondlength
              "C").natoms
            ((Nanotube.ntBuilder Nanotube.ntExample.n Nanotube.ntExample.m
              Nanotube.ntExample.length Nanotube.ntExample.bondlength
              "C").cell00 / 2)
            (Nanotube.ntBuilder Nanotube.ntExample.n Nanotube.ntExample.m
              Nanotube.ntExample.length Nanotube.ntExample.bondlength
              "C").cell22}, []) :=
  (nanotube_make_delegates Nanotube.ntBuilder Nanotube.ntExample).1 "C" rfl

/-- Helper: `row_swap_next` on an in-range index is the double `set`. -/
theorem row_swap_next_eq (dt : List Row) (i : ℕ) (h : i + 1 < dt.length) :
    row_swap_next dt i = some ((dt.set i dt[i + 1]).set (i + 1) dt[i]) := by
  unfold row_swap_next
  rw [List.getElem?_eq_getElem h, List.getElem?_eq_getElem (Nat.lt_of_succ_lt h)]

/-- Helper: swapping preserves the length. -/
theorem swap_length (dt : List Row) (i : ℕ) (h : i + 1 < dt.length) :
    ((dt.set i dt[i + 1]).set (i + 1) dt[i]).length = dt.length := by
  simp [List.length_set]

/-- Helper: the swapped table holds the old `i+1` entry at `i`. -/
theorem swap_at_i (dt : List Row) (i : ℕ) (h : i + 1 < dt.length) :
    ((dt.set i dt[i + 1]).set (i + 1) dt[i])[i]? = dt[i + 1]? := by
  have hi : i < dt.length := Nat.lt_of_succ_lt h
  rw [List.getElem?_set_ne (by omega)]
  rw [List.getElem?_set_eq_of_lt _ hi]
  rw [List.getElem?_eq_getElem h]

/-- Helper: the swapped table holds the old `i` entry at `i+1`. -/
theorem swap_at_i1 (dt : List Row) (i : ℕ) (h : i + 1 < dt.length) :
    ((dt.set i dt[i + 1]).set (i + 1) dt[i])[i + 1]? = dt[i]? := by
  have hi : i < dt.length := Nat.lt_of_succ_lt h
  rw [List.getElem?_set_eq_of_lt _ (by simpa [List.length_set] using h)]
  rw [List.getElem?_eq_getElem hi]

/-- Helper: the swap touches no other position. -/
theorem swap_frame_lt (dt : List Row) (i : ℕ) (h : i + 1 < dt.length)
    (j : ℕ) (hj : j ≠ i) (hj1 : j ≠ i + 1) :
    ((dt.set i dt[i + 1]).set (i + 1) dt[i])[j]? = dt[j]? := by
  rw [List.getElem?_set_ne (fun hc => hj1 hc.symm)]
  rw [List.getElem?_set_ne (fun hc => hj hc.symm)]

/-- Helper: swapping twice at the same index restores the table. -/
theorem swap_invol (dt : List Row) (i : ℕ) (h : i + 1 < dt.length) :
    row_swap_next ((dt.set i dt[i + 1]).set (i + 1) dt[i]) i = some dt := by
  have hi : i < dt.length := Nat.lt_of_succ_lt h
  have h2 : i + 1 < ((dt.set i dt[i + 1]).set (i + 1) dt[i]).length := by
    simpa [List.length_set] using h
  have hx : ((dt.set i dt[i + 1]).set (i + 1) dt[i])[i + 1] = dt[i] := by
    have hv := swap_at_i1 dt i h
    rw [List.getElem?_eq_getElem h2, List.getElem?_eq_getElem hi] at hv
    exact Option.some.inj hv
  have hy : ((dt.set i dt[i + 1]).set (i + 1) dt[i])[i] = dt[i + 1] := by
    have hv := swap_at_i dt i h
    rw [List.getElem?_eq_getElem (Nat.lt_of_succ_lt h2),
      List.getElem?_eq_getElem h] at hv
    exact Option.some.inj hv
  rw [row_swap_next_eq _ _ h2, hx, hy]
  congr 1
  apply List.ext_getElem?
  intro j
  by_cases hji : j = i
  · rw [hji]
    rw [List.getElem?_set_ne (by omega)]
    rw [List.getElem?_set_eq_of_lt _ (by simpa [List.length_set] using hi)]
    rw [List.getElem?_eq_getElem hi]
  by_cases hji1 : j = i + 1
  · rw [hji1]
    rw [List.getElem?_set_eq_of_lt _ (by simpa [List.length_set] using h)]
    rw [List.getElem?_eq_getElem h]
  · rw [List.getElem?_set_ne (fun hc => hji1 hc.symm)]
    rw [List.getElem?_set_ne (fun hc => hji hc.symm)]
    exact swap_frame_lt dt i h j hji hji1

/-- C6: `row_swap_next` exchanges exactly the entries at positions i and
i+1 (so doing it twice restores the table), and `row_delete` removes
exactly the entry at the given index, preserving the order of the rest. -/
theorem direction_table_bookkeeping :
    (∀ (dt : List Row) (i : ℕ), i + 1 < dt.length →
      ∃ dt2, row_swap_next dt i = some dt2 ∧
        dt2.length = dt.length ∧
        dt2[i]? = dt[i + 1]? ∧
        dt2[i + 1]? = dt[i]? ∧
        (∀ j, j ≠ i → j ≠ i + 1 → dt2[j]? = dt[j]?) ∧
        row_swap_next dt2 i = some dt) ∧
    (∀ (dt : List Row) (i : ℕ), i < dt.length →
      row_delete dt i = some (dt.take i ++ dt.drop (i + 1))) := by
  constructor
  · intro dt i h
    exact ⟨(dt.set i dt[i + 1]).set (i + 1) dt[i],
      row_swap_next_eq dt i h, swap_length dt i h, swap_at_i dt i h,
      swap_at_i1 dt i h, swap_frame_lt dt i h, swap_invol dt i h⟩
  · intro dt i h
    simp [row_delete, h, List.eraseIdx_eq_take_drop_succ]

/-- Witness for C6 on a concrete two-row table at index 0. -/
theorem direction_table_bookkeeping_witness :
    (∃ dt2, row_swap_next npLayersExample.direction_table 0 = some dt2 ∧
      dt2.length = npLayersExample.direction_table.length ∧
      dt2[0]? = npLayersExample.direction_table[0 + 1]? ∧
      dt2[0 + 1]? = npLayersExample.direction_table[0]? ∧
      (∀ j, j ≠ 0 → j ≠ 0 + 1 →
        dt2[j]? = npLayersExample.direction_table[j]?) ∧
      row_swap_next dt2 0 = some npLayersExample.direction_table) ∧
    row_delete npLayersExample.direction_table 0 =
      some (npLayersExample.direction_table.take 0 ++
        npLayersExample.direction_table.drop (0 + 1)) :=
  ⟨direction_table_bookkeeping.1 npLayersExample.direction_table 0
      (by decide),
   direction_table_bookkeeping.2 npLayersExample.direction_table 0
      (by decide)⟩

/-- C8: `get_atomic_volume` returns exactly a^3/4 for fcc, a^3/2 for bcc,
a^3 for sc, (sqrt 3 / 2) a a c / 2 for hcp, (sqrt 3 / 2) a a c / 4 for
graphite, and raises `RuntimeError` for any other structure value; the
atom-count/diameter conversions and the reported approximate diameter are
computed from this volume. -/
theorem atomic_volume_formulas :
    (∀ a c : ℚ, get_atomic_volume "fcc" a c = Except.ok ((a : ℝ) ^ 3 / 4)) ∧
    (∀ a c : ℚ, get_atomic_volume "bcc" a c = Except.ok ((a : ℝ) ^ 3 / 2)) ∧
    (∀ a c : ℚ, get_atomic_volume "sc" a c = Except.ok ((a : ℝ) ^ 3)) ∧
    (∀ a c : ℚ, get_atomic_volume "hcp" a c =
      Except.ok (Real.sqrt 3 / 2 * (a : ℝ) * (a : ℝ) * (c : ℝ) / 2)) ∧
    (∀ a c : ℚ, get_atomic_volume "graphite" a c =
      Except.ok (Real.sqrt 3 / 2 * (a : ℝ) * (a : ℝ) * (c : ℝ) / 4)) ∧
    (∀ (t : String) (a c : ℚ), t ∉ list_of_structures →
      get_atomic_volume t a c =
        Except.error ("Unknown structure: " ++ t)) ∧
    (∀ (s : NPState) (natoms : ℕ) (v : ℝ),
      get_atomic_volume s.structureValue s.lattice_const_a
        s.lattice_const_c = Except.ok v →
      reported_diameter s natoms =
        Except.ok (2 * (3 * ((natoms : ℚ) : ℝ) * v / (4 * Real.pi)) ^
          ((1 : ℝ) / 3)) ∧
      size_n_to_dia s =
        Except.ok (2 * (3 * ((s.size_n : ℚ) : ℝ) * v / (4 * Real.pi)) ^
          ((1 : ℝ) / 3)) ∧
      size_dia_to_n s =
        Except.ok ((round (Real.pi / 6 * ((s.size_dia : ℚ) : ℝ) ^ 3 / v) :
          ℤ))) := by
  refine ⟨?_, ?_, ?_, ?_, ?_, ?_, ?_⟩
  · intro a c; simp [get_atomic_volume]
  · intro a c; simp [get_atomic_volume]
  · intro a c; simp [get_atomic_volume]
  · intro a c; simp [get_atomic_volume]
  · intro a c; simp [get_atomic_volume]
  · intro t a c ht
    simp only [list_of_structures, structure_data, List.map_cons,
      List.map_nil, List.mem_cons, List.not_mem_nil, or_false,
      not_or] at ht
    obtain ⟨h1, h2, h3, h4, h5⟩ := ht
    simp [get_atomic_volume, h1, h2, h3, h4, h5]
  · intro s natoms v h
    refine ⟨?_, ?_, ?_⟩ <;>
      simp [reported_diameter, size_n_to_dia, size_dia_to_n,
        cluster_diameter, Except.map, h]

/-- Witness for C8: the unknown-structure error at a concrete key, and the
reported diameter composed with the fcc volume at concrete constants. -/
theorem atomic_volume_formulas_witness :
    get_atomic_volume "xyz" 1 1 =
      Except.error ("Unknown structure: " ++ "xyz") ∧
    reported_diameter npLayersExample 10 =
      Except.ok (2 * (3 * ((10 : ℚ) : ℝ) * (((3 : ℚ) : ℝ) ^ 3 / 4) /
        (4 * Real.pi)) ^ ((1 : ℝ) / 3)) :=
  ⟨atomic_volume_formulas.2.2.2.2.2.1 "xyz" 1 1 (by decide),
   (atomic_volume_formulas.2.2.2.2.2.2 npLayersExample 10 _
      (atomic_volume_formulas.1 3 3)).1⟩

/-- C9: the nanotube dialog does not enforce m <= n: the spin boxes only
constrain n to [1, 100] and m to [0, 100], and for every such pair with a
valid element, `make` passes n and m unchanged to the external builder
with no validation or error dialog. -/
theorem nanotube_no_mn_validation :
    (Nanotube.n_spinbox.minimum = 1 ∧ Nanotube.n_spinbox.maximum = 100 ∧
     Nanotube.m_spinbox.minimum = 0 ∧ Nanotube.m_spinbox.maximum = 100) ∧
    (∀ (nt : ℚ → ℚ → ℚ → ℚ → String → Nanotube.TubeAtoms)
        (s : Nanotube.NTState) (sym : String),
      s.symbol = some sym →
      1 ≤ s.n → s.n ≤ 100 → 0 ≤ s.m → s.m ≤ 100 →
      (Nanotube.make nt s).1.atoms =
        some (nt s.n s.m s.length s.bondlength sym) ∧
      (Nanotube.make nt s).2 = []) := by
  refine ⟨⟨rfl, rfl, rfl, rfl⟩, ?_⟩
  intro nt s sym hsym h1 h2 h3 h4
  exact ⟨by simp [Nanotube.make, hsym], nanotube_make_events_nil nt s⟩

/-- Witness for C9 at a concrete state with m = 7 > n = 5. -/
theorem nanotube_no_mn_validation_witness :
    (Nanotube.make Nanotube.ntBuilder Nanotube.ntExample).1.atoms =
      some (Nanotube.ntBuilder Nanotube.ntExample.n Nanotube.ntExample.m
        Nanotube.ntExample.length Nanotube.ntExample.bondlength "C") ∧
    (Nanotube.make Nanotube.ntBuilder Nanotube.ntExample).2 = [] :=
  nanotube_no_mn_validation.2 Nanotube.ntBuilder Nanotube.ntExample "C"
    rfl (by decide) (by decide) (by decide) (by decide)

/-- Helper: a successful `makeatoms` never changes the direction table. -/
theorem makeatoms_direction_table (dconv : ℚ → ℚ) (s s1 : NPState)
    (h : makeatoms dconv s = Except.ok s1) :
    s1.direction_table = s.direction_table := by
  cases hes : s.element_symbol
  · simp only [makeatoms, update_element, hes, Option.isSome_none,
      Except.ok.injEq] at h
    subst h
    rfl
  · cases hfac : factory s.structureValue
    · simp [makeatoms, update_element, hes, hfac] at h
    · cases hm : s.method
      · simp only [makeatoms, update_element, hes, hfac, hm,
          Option.isSome_some, Except.ok.injEq] at h
        subst h
        rfl
      · cases hdr : s.size_dia_radio <;>
          cases hra : s.round_above <;>
          cases hrb : s.round_below <;>
          cases hrc : s.round_closest <;>
          simp only [makeatoms, update_element, update_size_dia_state, hes,
            hfac, hm, hdr, hra, hrb, hrc, Option.isSome_some, if_true,
            if_false, Bool.false_eq_true, ite_false, ite_true,
            Except.ok.injEq, reduceCtorEq] at h <;>
          (subst h; rfl)

/-- Helper: a successful `update` never changes the direction table. -/
theorem update_direction_table_frame (dconv : ℚ → ℚ) (s s1 : NPState)
    (h : update dconv s = Except.ok s1) :
    s1.direction_table = s.direction_table := by
  simp only [update] at h
  split at h
  · obtain rfl := Except.ok.inj h
    rfl
  · split at h
    · exact (makeatoms_direction_table dconv _ s1 h).trans
        (by simp [update_element])
    · obtain rfl := Except.ok.inj h
      simp [clearatoms, update_element]

/-- C10: `update_structure` replaces the direction table with the default
table for the new structure exactly when the index arity (the need for
four-index directions) changed; with the arity unchanged, or the selected
structure unchanged, the direction table entries are left untouched. -/
theorem update_structure_table_reset (dconv : ℚ → ℚ) (s s1 : NPState)
    (hInv : s.fourindex = needs_4index s.old_structure)
    (hOk : update_structure dconv s = Except.ok s1) :
    s1.direction_table =
      if needs_4index s.structureValue = needs_4index s.old_structure then
        s.direction_table
      else
        (default_layers s.structureValue).map
          (fun dl => ⟨dl.1, (dl.2 : ℚ), 1⟩) := by
  simp only [update_structure] at hOk
  by_cases hsv : s.structureValue = s.old_structure
  · rw [if_neg (by simp [hsv])] at hOk
    rw [if_pos (by rw [hsv])]
    exact update_direction_table_frame dconv s s1 hOk
  · rw [if_pos hsv] at hOk
    by_cases h4 : needs_4index s.structureValue = s.fourindex
    · rw [if_neg (by simp [h4])] at hOk
      rw [if_pos (h4.trans hInv)]
      exact (update_direction_table_frame dconv _ s1 hOk).trans rfl
    · rw [if_pos (by simp [h4])] at hOk
      rw [if_neg (fun hc => h4 (hc.trans hInv.symm))]
      have := update_direction_table_frame dconv _ s1 hOk
      rw [this]
      simp [default_direction_table]

/-- Witness for C10: switching the combo box from fcc to hcp resets the
table to the hcp default. -/
theorem update_structure_table_reset_witness :
    npStructChangeResult.direction_table =
      if needs_4index npStructChangeExample.structureValue =
          needs_4index npStructChangeExample.old_structure then
        npStructChangeExample.direction_table
      else
        (default_layers npStructChangeExample.structureValue).map
          (fun dl => ⟨dl.1, (dl.2 : ℚ), 1⟩) :=
  update_structure_table_reset id npStructChangeExample
    npStructChangeResult (by decide) (by rfl)
